import Mathlib

/-!
Shallow embedding of the Sens Prism Python SDK
(`src/sdk/python/sens/client.py` and `src/sdk/python/sens/exceptions.py`).

Decoded JSON response bodies are modelled by `JVal`; a response body that is
not valid JSON is modelled as `none` (the client substitutes an empty dict).
Python runtime exceptions that can escape the SDK (`ValueError` from `int()`,
`KeyError` from `dict[key]`, `TypeError` from indexing or iterating a
non-container) are modelled alongside the SDK's own `SensError` hierarchy in
`PyExc`.  Each client operation is a pure function of the client
configuration, the (mocked) transport response, and — for upload — the file
system; it returns the list of HTTP requests issued together with the
operation's outcome.  Request bodies are recorded up to the fields the SDK
actually sets (multipart form fields and the JSON query payload).
-/

namespace SensPrism

/-- Values produced by decoding a JSON response body (`response.json()`).
`null` also stands for Python `None`. -/
inductive JVal where
  | null : JVal
  | bool : Bool → JVal
  | int : Int → JVal
  | num : Rat → JVal
  | str : String → JVal
  | list : List JVal → JVal
  | obj : List (String × JVal) → JVal

/-- A decoded JSON object: association list of string keys to values. -/
def JObj : Type := List (String × JVal)

/-- Lookup of a key in a decoded object (Python `dict.__contains__` view). -/
def jGet (o : JObj) (k : String) : Option JVal :=
  match o with
  | [] => none
  | kv :: rest => if kv.1 = k then some kv.2 else jGet rest k

/-- Python `data.get(k, d)`: the stored value when the key is present,
otherwise the default. -/
def dictGetD (o : JObj) (k : String) (d : JVal) : JVal :=
  match jGet o k with
  | some v => v
  | none => d

/-- Python truthiness of a decoded JSON value. -/
def pyTruthy : JVal → Bool
  | JVal.null => false
  | JVal.bool b => b
  | JVal.int n => n ≠ 0
  | JVal.num x => x ≠ 0
  | JVal.str s => s ≠ ""
  | JVal.list xs => !xs.isEmpty
  | JVal.obj kvs => !kvs.isEmpty

/-- Python `a or b` on decoded values. -/
def pyOrV (a b : JVal) : JVal :=
  if pyTruthy a then a else b

/-- The subclasses of `SensError` in `sens/exceptions.py` (plus the base
class itself as `base`). -/
inductive ErrKind where
  | base : ErrKind
  | validation : ErrKind
  | auth : ErrKind
  | notFound : ErrKind
  | conflict : ErrKind
  | payloadTooLarge : ErrKind
  | rateLimit : ErrKind
  | serviceUnavailable : ErrKind
deriving DecidableEq

/-- The data a raised `SensError` carries: its (sub)class, `message`, `code`,
`details`, and — for `SensRateLimitError` / `SensServiceUnavailableError` —
`retry_after`.  Python `None` is represented by `JVal.null`. -/
structure SensExcData where
  kind : ErrKind
  message : JVal
  code : JVal
  details : JVal
  retryAfter : Option Int

/-- The exceptions that can escape the SDK: a `SensError` (any subclass), or
one of the Python builtin exceptions the SDK code can raise. -/
inductive PyExc where
  | sens : SensExcData → PyExc
  | valueError : String → PyExc
  | keyError : String → PyExc
  | typeError : PyExc

/-- Construction of a `SensError` subclass without retry-after: the base
`SensError.__init__` stores `details or \x7b\x7d`. -/
def mkSensExc (k : ErrKind) (message code details : JVal) : SensExcData :=
  ⟨k, message, code, pyOrV details (JVal.obj []), none⟩

/-- Construction of `SensRateLimitError` / `SensServiceUnavailableError`:
same base initialisation, plus the `retry_after` attribute. -/
def mkSensRetry (k : ErrKind) (message code details : JVal)
    (retryAfter : Option Int) : SensExcData :=
  ⟨k, message, code, pyOrV details (JVal.obj []), retryAfter⟩

/-- Digits-only parse of a nonempty character list. -/
def digitsToNat : List Char → Option Nat
  | [] => none
  | cs => if cs.all Char.isDigit
      then some (cs.foldl (fun acc c => acc * 10 + (c.toNat - 48)) 0)
      else none

/-- Strip of leading and trailing whitespace from a character list. -/
def stripWs (cs : List Char) : List Char :=
  ((cs.dropWhile Char.isWhitespace).reverse.dropWhile Char.isWhitespace).reverse

/-- Python `int(s)` on a string: strip surrounding whitespace, accept an
optional sign followed by decimal digits; anything else raises `ValueError`
(modelled as `none`). -/
def pyIntOfString (s : String) : Option Int :=
  match stripWs s.data with
  | '+' :: rest => (digitsToNat rest).map (fun n => (n : Int))
  | '-' :: rest => (digitsToNat rest).map (fun n => -(n : Int))
  | rest => (digitsToNat rest).map (fun n => (n : Int))

/-- An HTTP response as the SDK sees it: status code, decoded JSON body
(`none` when the body is not valid JSON), and the `Retry-After` header. -/
structure Response where
  status : Nat
  body : Option JObj
  retryAfterHeader : Option String

/-- Statuses the SDK treats as success: `response.status_code in (200, 201,
202, 204)`. -/
def successStatus (s : Nat) : Bool :=
  s = 200 || s = 201 || s = 202 || s = 204

/-- The `int(retry_after) if retry_after else None` expression of
`_handle_response`: `None` and the empty string are falsy; a non-numeric
nonempty header makes `int()` raise `ValueError`. -/
def parseRetryAfter (h : Option String) : Except PyExc (Option Int) :=
  match h with
  | none => Except.ok none
  | some s =>
    if s = "" then Except.ok none
    else
      match pyIntOfString s with
      | some n => Except.ok (some n)
      | none => Except.error (PyExc.valueError s)

/-- `SensClient._handle_response`: substitute an empty dict for an
undecodable body, return the body on success statuses, otherwise raise the
`SensError` subclass selected by the status code, with `message` / `code` /
`details` taken from the body. -/
def handle_response (r : Response) : Except PyExc JObj :=
  let data : JObj := r.body.getD []
  if successStatus r.status then Except.ok data
  else
    let msg := dictGetD data "message" (JVal.str ("HTTP " ++ toString r.status))
    let code := dictGetD data "code" JVal.null
    let details := dictGetD data "details" (JVal.obj [])
    if r.status = 400 then
      Except.error (PyExc.sens (mkSensExc ErrKind.validation msg code details))
    else if r.status = 401 then
      Except.error (PyExc.sens (mkSensExc ErrKind.auth msg code details))
    else if r.status = 403 then
      Except.error (PyExc.sens (mkSensExc ErrKind.auth msg code details))
    else if r.status = 404 then
      Except.error (PyExc.sens (mkSensExc ErrKind.notFound msg code details))
    else if r.status = 409 then
      Except.error (PyExc.sens (mkSensExc ErrKind.conflict msg code details))
    else if r.status = 413 then
      Except.error (PyExc.sens (mkSensExc ErrKind.payloadTooLarge msg code details))
    else if r.status = 429 then
      match parseRetryAfter r.retryAfterHeader with
      | Except.error e => Except.error e
      | Except.ok ra =>
        Except.error (PyExc.sens (mkSensRetry ErrKind.rateLimit msg code details ra))
    else if r.status = 503 then
      match parseRetryAfter r.retryAfterHeader with
      | Except.error e => Except.error e
      | Except.ok ra =>
        Except.error (PyExc.sens (mkSensRetry ErrKind.serviceUnavailable msg code details ra))
    else
      Except.error (PyExc.sens (mkSensExc ErrKind.base msg code details))

/-- A constructed `SensClient`: the resolved API key, the base URL with
trailing slashes stripped, and the timeout.  The underlying `httpx.Client`
is represented only through the requests the operations issue. -/
structure SensClient where
  api_key : String
  base_url : String
  timeout : Int

/-- Strip of trailing slash characters (`base_url.rstrip("/")`). -/
def rstripSlash (s : String) : String :=
  String.mk ((s.data.reverse.dropWhile (fun c => c = '/')).reverse)

/-- `SensClient.__init__`: resolve the key as `api_key or
os.getenv("SENS_API_KEY")` (Python truthiness: `None` and `""` are falsy)
and raise `SensValidationError` with code `SENS_003` when the resolved key
is falsy.  `envKey` is the value of the `SENS_API_KEY` environment variable
(`none` when unset). -/
def clientInit (apiKey envKey : Option String) (baseUrl : String)
    (timeout : Int) : Except PyExc SensClient :=
  let resolved : Option String :=
    match apiKey with
    | some s => if s = "" then envKey else some s
    | none => envKey
  match resolved with
  | none =>
    Except.error (PyExc.sens (mkSensExc ErrKind.validation
      (JVal.str "API key required. Provide \x27api_key\x27 parameter or set SENS_API_KEY environment variable.")
      (JVal.str "SENS_003") JVal.null))
  | some key =>
    if key = "" then
      Except.error (PyExc.sens (mkSensExc ErrKind.validation
        (JVal.str "API key required. Provide \x27api_key\x27 parameter or set SENS_API_KEY environment variable.")
        (JVal.str "SENS_003") JVal.null))
    else
      Except.ok ⟨key, rstripSlash baseUrl, timeout⟩

/-- The `Document` dataclass.  Fields hold whatever decoded JSON value the
server sent (Python dataclasses do not check field types at runtime);
`JVal.null` is the `None` default of the optional fields. -/
structure Document where
  id : JVal
  status : JVal
  title : JVal
  size_bytes : JVal
  tags : JVal
  created_at : JVal
  estimated_ready_at : JVal
  ready_at : JVal
  page_count : JVal
  chunk_count : JVal
  concept_count : JVal

/-- The `Source` dataclass. -/
structure Source where
  document_id : JVal
  document_title : JVal
  page : JVal
  excerpt : JVal
  confidence_score : JVal
  semantic_layer : JVal
  matched_concepts : JVal
  pragmatic_insights : JVal

/-- The `QueryResult` dataclass. -/
structure QueryResult where
  query_id : JVal
  query : JVal
  answer : JVal
  confidence_score : JVal
  processing_time_ms : JVal
  sources : List Source

/-- The `ContextRail` dataclass. -/
structure ContextRail where
  query_id : JVal
  query : JVal
  retrieved_at : JVal
  sources : List Source
  summary : JVal

/-- Python `result[k]` on a dict: the value when present, otherwise a
`KeyError`. -/
def pySub (o : JObj) (k : String) : Except PyExc JVal :=
  match jGet o k with
  | some v => Except.ok v
  | none => Except.error (PyExc.keyError k)

/-- Iteration over the value of `result.get("sources", [])`, as Python's
`for` would: a list yields its elements, a string its characters, a dict
its keys; other values raise `TypeError`. -/
def pyIter (v : JVal) : Except PyExc (List JVal) :=
  match v with
  | JVal.list xs => Except.ok xs
  | JVal.str s => Except.ok (s.data.map (fun c => JVal.str (String.mk [c])))
  | JVal.obj kvs => Except.ok (kvs.map (fun kv => JVal.str kv.1))
  | _ => Except.error PyExc.typeError

/-- Left-to-right effectful map, mirroring a Python list comprehension:
the first exception aborts the whole comprehension. -/
def mapE (f : JVal → Except PyExc Source) : List JVal → Except PyExc (List Source)
  | [] => Except.ok []
  | x :: xs =>
    match f x with
    | Except.error e => Except.error e
    | Except.ok y =>
      match mapE f xs with
      | Except.error e => Except.error e
      | Except.ok ys => Except.ok (y :: ys)

/-- One entry of the `sources` comprehension in `SensClient.query`:
`document_id` by subscript (raising `KeyError` when missing), the other
three fields by `.get`; the remaining `Source` fields are left at their
`None` defaults.  Subscripting a non-dict raises `TypeError`. -/
def queryMkSource (s : JVal) : Except PyExc Source :=
  match s with
  | JVal.obj f =>
    match pySub f "document_id" with
    | Except.error e => Except.error e
    | Except.ok did =>
      Except.ok ⟨did, dictGetD f "document_title" JVal.null,
        dictGetD f "page" JVal.null, JVal.null,
        dictGetD f "confidence_score" JVal.null, JVal.null, JVal.null, JVal.null⟩
  | _ => Except.error PyExc.typeError

/-- One entry of the `sources` comprehension in
`SensClient.get_context_rail`: all eight `Source` fields are populated. -/
def contextMkSource (s : JVal) : Except PyExc Source :=
  match s with
  | JVal.obj f =>
    match pySub f "document_id" with
    | Except.error e => Except.error e
    | Except.ok did =>
      Except.ok ⟨did, dictGetD f "document_title" JVal.null,
        dictGetD f "page" JVal.null, dictGetD f "excerpt" JVal.null,
        dictGetD f "confidence_score" JVal.null,
        dictGetD f "semantic_layer" JVal.null,
        dictGetD f "matched_concepts" JVal.null,
        dictGetD f "pragmatic_insights" JVal.null⟩
  | _ => Except.error PyExc.typeError

/-- Construction of the `Document` returned by `upload_document`: `id` and
`status` by subscript (raising `KeyError` when missing), the echoed metadata
by `.get`; `ready_at` and the post-processing counts keep their `None`
defaults. -/
def documentOfUpload (result : JObj) : Except PyExc Document :=
  match pySub result "id" with
  | Except.error e => Except.error e
  | Except.ok did =>
    match pySub result "status" with
    | Except.error e => Except.error e
    | Except.ok st =>
      Except.ok ⟨did, st, dictGetD result "title" JVal.null,
        dictGetD result "size_bytes" JVal.null,
        dictGetD result "tags" JVal.null,
        dictGetD result "created_at" JVal.null,
        dictGetD result "estimated_ready_at" JVal.null,
        JVal.null, JVal.null, JVal.null, JVal.null⟩

/-- Construction of the `Document` returned by `get_document`:
`estimated_ready_at` keeps its `None` default, the post-processing counts
are read from the body. -/
def documentOfGet (result : JObj) : Except PyExc Document :=
  match pySub result "id" with
  | Except.error e => Except.error e
  | Except.ok did =>
    match pySub result "status" with
    | Except.error e => Except.error e
    | Except.ok st =>
      Except.ok ⟨did, st, dictGetD result "title" JVal.null,
        dictGetD result "size_bytes" JVal.null,
        dictGetD result "tags" JVal.null,
        dictGetD result "created_at" JVal.null,
        JVal.null,
        dictGetD result "ready_at" JVal.null,
        dictGetD result "page_count" JVal.null,
        dictGetD result "chunk_count" JVal.null,
        dictGetD result "concept_count" JVal.null⟩

/-- Construction of the `QueryResult` returned by `query`: the `sources`
comprehension runs first, then the required fields are read by subscript. -/
def queryResultOf (result : JObj) : Except PyExc QueryResult :=
  match pyIter (dictGetD result "sources" (JVal.list [])) with
  | Except.error e => Except.error e
  | Except.ok entries =>
    match mapE queryMkSource entries with
    | Except.error e => Except.error e
    | Except.ok sources =>
      match pySub result "query_id" with
      | Except.error e => Except.error e
      | Except.ok qid =>
        match pySub result "query" with
        | Except.error e => Except.error e
        | Except.ok qtext =>
          match pySub result "answer" with
          | Except.error e => Except.error e
          | Except.ok ans =>
            match pySub result "confidence_score" with
            | Except.error e => Except.error e
            | Except.ok conf =>
              match pySub result "processing_time_ms" with
              | Except.error e => Except.error e
              | Except.ok ptime =>
                Except.ok ⟨qid, qtext, ans, conf, ptime, sources⟩

/-- Construction of the `ContextRail` returned by `get_context_rail`. -/
def contextRailOf (result : JObj) : Except PyExc ContextRail :=
  match pyIter (dictGetD result "sources" (JVal.list [])) with
  | Except.error e => Except.error e
  | Except.ok entries =>
    match mapE contextMkSource entries with
    | Except.error e => Except.error e
    | Except.ok sources =>
      match pySub result "query_id" with
      | Except.error e => Except.error e
      | Except.ok qid =>
        match pySub result "query" with
        | Except.error e => Except.error e
        | Except.ok qtext =>
          match pySub result "retrieved_at" with
          | Except.error e => Except.error e
          | Except.ok ra =>
            Except.ok ⟨qid, qtext, ra, sources,
              dictGetD result "summary" (JVal.obj [])⟩

/-- An HTTP request as issued by the client: method, full URL, multipart
form fields (upload only) and JSON payload (query only). -/
structure Request where
  method : String
  url : String
  form : List (String × String)
  jsonBody : Option JObj

/-- The optional multipart form fields of `upload_document`: `title` and a
comma-joined `tags` field, each only when truthy. -/
def uploadForm (title : Option String) (tags : Option (List String)) :
    List (String × String) :=
  (match title with
   | some t => if t = "" then [] else [("title", t)]
   | none => []) ++
  (match tags with
   | some ts => if ts.isEmpty then [] else [("tags", String.intercalate "," ts)]
   | none => [])

/-- `SensClient.upload_document`.  The file system is a predicate giving
`os.path.exists`; `resp` is the transport's reply to the one POST the
method issues when the file exists.  The result pairs the list of requests
issued with the outcome. -/
def upload_document (c : SensClient) (fs : String → Bool) (file_path : String)
    (title : Option String) (tags : Option (List String)) (resp : Response) :
    List Request × Except PyExc Document :=
  if fs file_path then
    let req : Request := ⟨"POST", c.base_url ++ "/documents",
      uploadForm title tags, none⟩
    ([req],
      match handle_response resp with
      | Except.error e => Except.error e
      | Except.ok result => documentOfUpload result)
  else
    ([], Except.error (PyExc.sens (mkSensExc ErrKind.validation
      (JVal.str ("File not found: " ++ file_path))
      (JVal.str "SENS_003") JVal.null)))

/-- `SensClient.get_document`. -/
def get_document (c : SensClient) (document_id : String) (resp : Response) :
    List Request × Except PyExc Document :=
  let req : Request := ⟨"GET", c.base_url ++ "/documents/" ++ document_id,
    [], none⟩
  ([req],
    match handle_response resp with
    | Except.error e => Except.error e
    | Except.ok result => documentOfGet result)

/-- `SensClient.delete_document`: the decoded body is discarded. -/
def delete_document (c : SensClient) (document_id : String) (resp : Response) :
    List Request × Except PyExc Unit :=
  let req : Request := ⟨"DELETE", c.base_url ++ "/documents/" ++ document_id,
    [], none⟩
  ([req],
    match handle_response resp with
    | Except.error e => Except.error e
    | Except.ok _ => Except.ok ())

/-- The JSON payload of `query`: `query`, `limit` and
`confidence_threshold` always; `document_ids` and `tags` only when truthy
(non-`None` and nonempty). -/
def queryPayload (q : String) (document_ids tags : Option (List String))
    (limit : Int) (confidence_threshold : Rat) : JObj :=
  [("query", JVal.str q), ("limit", JVal.int limit),
   ("confidence_threshold", JVal.num confidence_threshold)] ++
  (match document_ids with
   | some ids => if ids.isEmpty then [] else
      [("document_ids", JVal.list (ids.map JVal.str))]
   | none => []) ++
  (match tags with
   | some ts => if ts.isEmpty then [] else
      [("tags", JVal.list (ts.map JVal.str))]
   | none => [])

/-- `SensClient.query`. -/
def query (c : SensClient) (q : String) (document_ids tags : Option (List String))
    (limit : Int) (confidence_threshold : Rat) (resp : Response) :
    List Request × Except PyExc QueryResult :=
  let req : Request := ⟨"POST", c.base_url ++ "/query", [],
    some (queryPayload q document_ids tags limit confidence_threshold)⟩
  ([req],
    match handle_response resp with
    | Except.error e => Except.error e
    | Except.ok result => queryResultOf result)

/-- `SensClient.get_context_rail`. -/
def get_context_rail (c : SensClient) (query_id : String) (resp : Response) :
    List Request × Except PyExc ContextRail :=
  let req : Request := ⟨"GET", c.base_url ++ "/context-rail/" ++ query_id,
    [], none⟩
  ([req],
    match handle_response resp with
    | Except.error e => Except.error e
    | Except.ok result => contextRailOf result)

/-- `SensClient.upload_document_async`: `run_in_executor` hands the same
positional arguments to the blocking `upload_document` and the awaited
future carries its result or exception unchanged. -/
def upload_document_async (c : SensClient) (fs : String → Bool)
    (file_path : String) (title : Option String) (tags : Option (List String))
    (resp : Response) : List Request × Except PyExc Document :=
  upload_document c fs file_path title tags resp

/-- `SensClient.query_async`: same delegation for `query`. -/
def query_async (c : SensClient) (q : String)
    (document_ids tags : Option (List String)) (limit : Int)
    (confidence_threshold : Rat) (resp : Response) :
    List Request × Except PyExc QueryResult :=
  query c q document_ids tags limit confidence_threshold resp

/-- Client used for concrete instantiations. -/
def exClient : SensClient :=
  ⟨"sens_sk_test", "https://api.sens.ai/v1", 30⟩

/-- Taxonomy member raised by a response-handler outcome, when the outcome
is a raised `SensError`. -/
def raisedKind : Except PyExc JObj → Option ErrKind
  | Except.error (PyExc.sens e) => some e.kind
  | _ => none

/-- Status table as the specification states it: 400 Validation; 401 and
403 Authentication; 404 NotFound; 409 Conflict; 413 PayloadTooLarge; 429
RateLimit; 503 ServiceUnavailable; any other non-2xx the generic base
error. -/
def claimKind (s : Nat) : ErrKind :=
  if s = 400 then ErrKind.validation
  else if s = 401 ∨ s = 403 then ErrKind.auth
  else if s = 404 then ErrKind.notFound
  else if s = 409 then ErrKind.conflict
  else if s = 413 then ErrKind.payloadTooLarge
  else if s = 429 then ErrKind.rateLimit
  else if s = 503 then ErrKind.serviceUnavailable
  else ErrKind.base

lemma successStatus_false_of_non2xx (s : Nat)
    (h : ¬ (200 ≤ s ∧ s ≤ 299)) : successStatus s = false := by
  simp only [successStatus, Bool.or_eq_false_iff, decide_eq_false_iff_not]
  omega

/-- C1.  For every response whose status is outside the 2xx family, and
whose `Retry-After` header does not make the `int()` parse blow up (the
condition the counterexample forces: on 429/503 the header must be absent,
empty, or numeric), `_handle_response` raises exactly the taxonomy member
the specification's table assigns to the status code. -/
theorem c1_error_taxonomy_mapping (r : Response)
    (hnon2xx : ¬ (200 ≤ r.status ∧ r.status ≤ 299))
    (hra : r.status = 429 ∨ r.status = 503 →
      ∃ ra, parseRetryAfter r.retryAfterHeader = Except.ok ra) :
    raisedKind (handle_response r) = some (claimKind r.status) := by
  have hs : successStatus r.status = false :=
    successStatus_false_of_non2xx r.status hnon2xx
  by_cases h400 : r.status = 400
  · simp [handle_response, successStatus, raisedKind, claimKind, hs, h400, mkSensExc]
  by_cases h401 : r.status = 401
  · simp [handle_response, successStatus, raisedKind, claimKind, hs, h400, h401, mkSensExc]
  by_cases h403 : r.status = 403
  · simp [handle_response, successStatus, raisedKind, claimKind, hs, h400, h401, h403, mkSensExc]
  by_cases h404 : r.status = 404
  · simp [handle_response, successStatus, raisedKind, claimKind, hs, h400, h401, h403, h404,
      mkSensExc]
  by_cases h409 : r.status = 409
  · simp [handle_response, successStatus, raisedKind, claimKind, hs, h400, h401, h403, h404,
      h409, mkSensExc]
  by_cases h413 : r.status = 413
  · simp [handle_response, successStatus, raisedKind, claimKind, hs, h400, h401, h403, h404,
      h409, h413, mkSensExc]
  by_cases h429 : r.status = 429
  · obtain ⟨ra, hra⟩ := hra (Or.inl h429)
    simp [handle_response, successStatus, raisedKind, claimKind, hs, h400, h401, h403, h404,
      h409, h413, h429, hra, mkSensRetry]
  by_cases h503 : r.status = 503
  · obtain ⟨ra, hra⟩ := hra (Or.inr h503)
    simp [handle_response, successStatus, raisedKind, claimKind, hs, h400, h401, h403, h404,
      h409, h413, h429, h503, hra, mkSensRetry]
  · have h2xx : ¬ (((r.status = 200 ∨ r.status = 201) ∨ r.status = 202) ∨
        r.status = 204) := by omega
    simp [handle_response, successStatus, raisedKind, claimKind, h2xx, h400,
      h401, h403, h404, h409, h413, h429, h503, mkSensExc]

/-- Witness for C1 at status 404. -/
theorem c1_error_taxonomy_mapping_witness :
    raisedKind (handle_response ⟨404, some [("message", JVal.str "missing")], none⟩) =
      some (claimKind 404) :=
  c1_error_taxonomy_mapping ⟨404, some [("message", JVal.str "missing")], none⟩
    (by decide) (fun h => absurd h (by decide))

/-- Counterexample to C1 as stated: a 429 response with the non-numeric
header `Retry-After: soon` makes the handler raise a `ValueError` from
`int()`, which is not a member of the error taxonomy, so not every non-2xx
response yields a taxonomy member. -/
theorem c1_counterexample :
    handle_response ⟨429, some [], some "soon"⟩ =
      Except.error (PyExc.valueError "soon") ∧
    raisedKind (handle_response ⟨429, some [], some "soon"⟩) ≠
      some (claimKind 429) := by
  constructor
  · rfl
  · intro h
    rw [show handle_response ⟨429, some [], some "soon"⟩ =
      Except.error (PyExc.valueError "soon") from rfl] at h
    simp [raisedKind] at h

/-- C2 evaluated at the failing input: on a 503 response carrying the
header `Retry-After: tomorrow`, `int()` raises `ValueError` instead of
yielding no retry-after value; absent and numeric headers behave as the
claim states. -/
theorem c2_retry_after_value_error :
    parseRetryAfter none = Except.ok none ∧
    parseRetryAfter (some "5") = Except.ok (some 5) ∧
    handle_response ⟨503, some [("message", JVal.str "maintenance")], some "tomorrow"⟩ =
      Except.error (PyExc.valueError "tomorrow") :=
  ⟨rfl, rfl, rfl⟩

/-- C3 amended.  A 2xx response whose body is not valid JSON is decoded as
the empty mapping, and optional fields then degrade to defaults: `delete`
(which reads no field) completes, but `upload` reads the required field
`id` by subscript and raises `KeyError` on the empty mapping, so the
operation does crash. -/
theorem c3_unparseable_body_empty_mapping (c : SensClient) (id : String)
    (fs : String → Bool) (fp : String) (title : Option String)
    (tags : Option (List String)) (r : Response)
    (h2xx : successStatus r.status = true) (hbody : r.body = none)
    (hfs : fs fp = true) :
    handle_response r = Except.ok [] ∧
    (delete_document c id r).2 = Except.ok () ∧
    (upload_document c fs fp title tags r).2 =
      Except.error (PyExc.keyError "id") := by
  have h1 : handle_response r = Except.ok [] := by
    simp [handle_response, hbody, h2xx]
  refine ⟨h1, ?_, ?_⟩
  · simp [delete_document, h1]
  · simp [upload_document, hfs, h1, documentOfUpload, pySub, jGet]

/-- Witness for C3 at a 202 upload response with an undecodable body. -/
theorem c3_unparseable_body_empty_mapping_witness :
    handle_response ⟨202, none, none⟩ = Except.ok [] ∧
    (delete_document exClient "d1" ⟨202, none, none⟩).2 = Except.ok () ∧
    (upload_document exClient (fun _ => true) "report.pdf" none none
      ⟨202, none, none⟩).2 = Except.error (PyExc.keyError "id") :=
  c3_unparseable_body_empty_mapping exClient "d1" (fun _ => true) "report.pdf"
    none none ⟨202, none, none⟩ (by decide) rfl rfl

/-- Counterexample to C3 as stated: a 202 response with an unparseable
body makes `upload_document` crash with `KeyError` on the required field
`id`, so the operation does not always avoid a crash. -/
theorem c3_counterexample :
    (upload_document exClient (fun _ => true) "report.pdf" none none
      ⟨202, none, none⟩).2 = Except.error (PyExc.keyError "id") := rfl

/-- C4.  When the file does not exist, `upload_document` raises
`SensValidationError` locally and the list of HTTP requests issued is
empty. -/
theorem c4_upload_missing_file_no_request (c : SensClient)
    (fs : String → Bool) (fp : String) (title : Option String)
    (tags : Option (List String)) (r : Response) (h : fs fp = false) :
    upload_document c fs fp title tags r =
      ([], Except.error (PyExc.sens (mkSensExc ErrKind.validation
        (JVal.str ("File not found: " ++ fp)) (JVal.str "SENS_003")
        JVal.null))) := by
  simp [upload_document, h]

/-- Witness for C4 at a concrete missing file. -/
theorem c4_upload_missing_file_no_request_witness :
    upload_document exClient (fun _ => false) "ghost.pdf" none none
        ⟨200, some [], none⟩ =
      ([], Except.error (PyExc.sens (mkSensExc ErrKind.validation
        (JVal.str ("File not found: " ++ "ghost.pdf")) (JVal.str "SENS_003")
        JVal.null))) :=
  c4_upload_missing_file_no_request exClient (fun _ => false) "ghost.pdf"
    none none ⟨200, some [], none⟩ rfl

/-- C5.  Construction with neither an explicit key nor a value in
`SENS_API_KEY` raises `SensValidationError` (code `SENS_003`) and yields no
client; a non-empty key from either source makes construction succeed with
that key. -/
theorem c5_construction_requires_api_key (b : String) (t : Int) (k : String)
    (env : Option String) (hk : k ≠ "") :
    (∃ e, clientInit none none b t = Except.error (PyExc.sens e) ∧
      e.kind = ErrKind.validation ∧ e.code = JVal.str "SENS_003") ∧
    (∃ cl, clientInit (some k) env b t = Except.ok cl ∧ cl.api_key = k) ∧
    (∃ cl, clientInit none (some k) b t = Except.ok cl ∧ cl.api_key = k) := by
  refine ⟨⟨_, rfl, rfl, rfl⟩,
    ⟨⟨k, rstripSlash b, t⟩, ?_, rfl⟩, ⟨⟨k, rstripSlash b, t⟩, ?_, rfl⟩⟩
  · simp [clientInit, hk]
  · simp [clientInit, hk]

/-- Witness for C5 at a concrete key and base URL. -/
theorem c5_construction_requires_api_key_witness :
    (∃ e, clientInit none none "https://api.sens.ai/v1" 30 =
        Except.error (PyExc.sens e) ∧
      e.kind = ErrKind.validation ∧ e.code = JVal.str "SENS_003") ∧
    (∃ cl, clientInit (some "sens_sk_live") (some "") "https://api.sens.ai/v1" 30 =
        Except.ok cl ∧ cl.api_key = "sens_sk_live") ∧
    (∃ cl, clientInit none (some "sens_sk_live") "https://api.sens.ai/v1" 30 =
        Except.ok cl ∧ cl.api_key = "sens_sk_live") :=
  c5_construction_requires_api_key "https://api.sens.ai/v1" 30 "sens_sk_live"
    (some "") (by decide)

lemma parseRetryAfter_no_sens (h : Option String) (x : PyExc)
    (hx : parseRetryAfter h = Except.error x) :
    ∀ e, x ≠ PyExc.sens e := by
  unfold parseRetryAfter at hx
  split at hx
  · exact absurd hx (by simp)
  · split at hx
    · exact absurd hx (by simp)
    · split at hx
      · exact absurd hx (by simp)
      · injection hx with h1
        subst h1
        intro e
        simp

/-- C6.  Every `SensError` raised by `_handle_response` carries `message`
from the body field `message` (defaulting to `"HTTP <status>"`), `code`
from the body field `code`, and `details` from the body field `details`
(an absent or falsy `details` degrading to the empty mapping). -/
theorem c6_error_carries_body_fields (r : Response) (e : SensExcData)
    (h : handle_response r = Except.error (PyExc.sens e)) :
    e.message = dictGetD (r.body.getD []) "message"
      (JVal.str ("HTTP " ++ toString r.status)) ∧
    e.code = dictGetD (r.body.getD []) "code" JVal.null ∧
    e.details = pyOrV (dictGetD (r.body.getD []) "details" (JVal.obj []))
      (JVal.obj []) := by
  unfold handle_response at h
  repeat' split at h
  all_goals first
    | (injection h with h1; injection h1 with h2; subst h2; exact ⟨rfl, rfl, rfl⟩)
    | (injection h with h1; subst h1;
       exact absurd rfl (parseRetryAfter_no_sens _ _ (by assumption) e))
    | simp at h

/-- Witness for C6 at a 409 response with explicit body fields. -/
theorem c6_error_carries_body_fields_witness :
    (mkSensExc ErrKind.conflict (JVal.str "busy") (JVal.str "SENS_409")
        (JVal.obj [("doc", JVal.str "d1")])).message =
      dictGetD ((⟨409, some [("message", JVal.str "busy"),
          ("code", JVal.str "SENS_409"),
          ("details", JVal.obj [("doc", JVal.str "d1")])], none⟩ :
        Response).body.getD []) "message" (JVal.str ("HTTP " ++ toString 409)) ∧
    (mkSensExc ErrKind.conflict (JVal.str "busy") (JVal.str "SENS_409")
        (JVal.obj [("doc", JVal.str "d1")])).code =
      dictGetD ((⟨409, some [("message", JVal.str "busy"),
          ("code", JVal.str "SENS_409"),
          ("details", JVal.obj [("doc", JVal.str "d1")])], none⟩ :
        Response).body.getD []) "code" JVal.null ∧
    (mkSensExc ErrKind.conflict (JVal.str "busy") (JVal.str "SENS_409")
        (JVal.obj [("doc", JVal.str "d1")])).details =
      pyOrV (dictGetD ((⟨409, some [("message", JVal.str "busy"),
          ("code", JVal.str "SENS_409"),
          ("details", JVal.obj [("doc", JVal.str "d1")])], none⟩ :
        Response).body.getD []) "details" (JVal.obj [])) (JVal.obj []) :=
  c6_error_carries_body_fields
    ⟨409, some [("message", JVal.str "busy"), ("code", JVal.str "SENS_409"),
      ("details", JVal.obj [("doc", JVal.str "d1")])], none⟩
    (mkSensExc ErrKind.conflict (JVal.str "busy") (JVal.str "SENS_409")
      (JVal.obj [("doc", JVal.str "d1")])) rfl

/-- C7 amended.  Each of `get_document`, `delete_document`, `query` and
`get_context_rail` issues exactly one HTTP request per call, whatever the
response; `upload_document` issues exactly one when the file exists and
zero when its local file check fails, so never more than one — the client
never retries. -/
theorem c7_at_most_one_request (c : SensClient) (fs : String → Bool)
    (fp id qid q : String) (title : Option String)
    (tags dids qtags : Option (List String)) (limit : Int) (thr : Rat)
    (r : Response) :
    (get_document c id r).1.length = 1 ∧
    (delete_document c id r).1.length = 1 ∧
    (query c q dids qtags limit thr r).1.length = 1 ∧
    (get_context_rail c qid r).1.length = 1 ∧
    (upload_document c fs fp title tags r).1.length =
      (if fs fp then 1 else 0) ∧
    (upload_document c fs fp title tags r).1.length ≤ 1 := by
  refine ⟨rfl, rfl, rfl, rfl, ?_, ?_⟩ <;>
    by_cases h : fs fp <;> simp [upload_document, h]

/-- Counterexample to C7 as stated: an `upload_document` call whose file
check fails raises an error having issued zero HTTP round trips, not
exactly one. -/
theorem c7_counterexample :
    (upload_document exClient (fun _ => false) "missing.pdf" none none
        ⟨200, some [], none⟩).1.length = 0 ∧
    (upload_document exClient (fun _ => false) "missing.pdf" none none
        ⟨200, some [], none⟩).2 =
      Except.error (PyExc.sens (mkSensExc ErrKind.validation
        (JVal.str ("File not found: " ++ "missing.pdf"))
        (JVal.str "SENS_003") JVal.null)) :=
  ⟨rfl, rfl⟩

/-- C8.  The async variants delegate the same arguments to the blocking
operations and deliver exactly the synchronous outcome: same result on
success, same exception on failure. -/
theorem c8_async_equals_sync (c : SensClient) (fs : String → Bool)
    (fp : String) (title : Option String) (tags : Option (List String))
    (r : Response) (q : String) (dids qtags : Option (List String))
    (limit : Int) (thr : Rat) (r2 : Response) :
    upload_document_async c fs fp title tags r =
      upload_document c fs fp title tags r ∧
    query_async c q dids qtags limit thr r2 =
      query c q dids qtags limit thr r2 :=
  ⟨rfl, rfl⟩

lemma handle_response_ok (r : Response) (d : JObj)
    (h : handle_response r = Except.ok d) :
    d = r.body.getD [] ∧ successStatus r.status = true := by
  unfold handle_response at h
  repeat' split at h
  all_goals first
    | (injection h with h1; exact ⟨h1.symm, by assumption⟩)
    | simp at h

lemma mapE_ok_length (f : JVal → Except PyExc Source) :
    ∀ (xs : List JVal) (ys : List Source), mapE f xs = Except.ok ys →
      ys.length = xs.length := by
  intro xs
  induction xs with
  | nil =>
    intro ys h
    injection h with h1
    subst h1
    rfl
  | cons x xs ih =>
    intro ys h
    simp only [mapE] at h
    cases hfx : f x with
    | error e => simp [hfx] at h
    | ok y =>
      simp only [hfx] at h
      cases hm : mapE f xs with
      | error e => simp [hm] at h
      | ok ys2 =>
        simp only [hm] at h
        injection h with h1
        subst h1
        rw [List.length_cons, List.length_cons, ih ys2 hm]

lemma mapE_ok_get (f : JVal → Except PyExc Source) :
    ∀ (xs : List JVal) (ys : List Source), mapE f xs = Except.ok ys →
      ∀ (i : Nat) (hi : i < xs.length), ∃ hj : i < ys.length,
        f (xs.get ⟨i, hi⟩) = Except.ok (ys.get ⟨i, hj⟩) := by
  intro xs
  induction xs with
  | nil =>
    intro ys h i hi
    exact absurd hi (by simp)
  | cons x xs ih =>
    intro ys h i hi
    simp only [mapE] at h
    cases hfx : f x with
    | error e => simp [hfx] at h
    | ok y =>
      simp only [hfx] at h
      cases hm : mapE f xs with
      | error e => simp [hm] at h
      | ok ys2 =>
        simp only [hm] at h
        injection h with h1
        subst h1
        cases i with
        | zero => exact ⟨Nat.succ_pos _, hfx⟩
        | succ j =>
          have hj0 : j < xs.length := Nat.lt_of_succ_lt_succ hi
          obtain ⟨hj2, hg⟩ := ih ys2 hm j hj0
          exact ⟨Nat.succ_lt_succ hj2, hg⟩

/-- C9.  On a successful query, the decoded `QueryResult.sources` has one
`Source` per entry of the body's `sources` list, in the order received:
entry `i` maps to source `i` through `queryMkSource`; the client never
re-sorts, filters or re-ranks. -/
theorem c9_sources_one_per_entry_in_order (c : SensClient) (q : String)
    (dids tags : Option (List String)) (limit : Int) (thr : Rat)
    (r : Response) (res : QueryResult) (entries : List JVal)
    (hok : (query c q dids tags limit thr r).2 = Except.ok res)
    (hsrc : dictGetD (r.body.getD []) "sources" (JVal.list []) =
      JVal.list entries) :
    res.sources.length = entries.length ∧
    ∀ (i : Nat) (hi : i < entries.length), ∃ hj : i < res.sources.length,
      queryMkSource (entries.get ⟨i, hi⟩) =
        Except.ok (res.sources.get ⟨i, hj⟩) := by
  simp only [query] at hok
  cases hh : handle_response r with
  | error e => simp [hh] at hok
  | ok result =>
    simp only [hh] at hok
    obtain ⟨hd, _⟩ := handle_response_ok r result hh
    subst hd
    unfold queryResultOf at hok
    rw [hsrc] at hok
    simp only [pyIter] at hok
    cases hm : mapE queryMkSource entries with
    | error e => simp [hm] at hok
    | ok sources =>
      simp only [hm] at hok
      repeat' split at hok
      all_goals first
        | (simp only [Except.ok.injEq] at hok; subst hok;
           exact ⟨mapE_ok_length _ _ _ hm, fun i hi => mapE_ok_get _ _ _ hm i hi⟩)
        | simp at hok

/-- Witness for C9 at a 200 query response with two sources. -/
theorem c9_sources_one_per_entry_in_order_witness :
    ((query exClient "what" none none 3 (1 / 2)
        ⟨200, some [("query_id", JVal.str "q1"), ("query", JVal.str "what"),
          ("answer", JVal.str "42"), ("confidence_score", JVal.num (9 / 10)),
          ("processing_time_ms", JVal.int 12),
          ("sources", JVal.list
            [JVal.obj [("document_id", JVal.str "a")],
             JVal.obj [("document_id", JVal.str "b")]])], none⟩).2 =
      Except.ok ⟨JVal.str "q1", JVal.str "what", JVal.str "42",
        JVal.num (9 / 10), JVal.int 12,
        [⟨JVal.str "a", JVal.null, JVal.null, JVal.null, JVal.null,
          JVal.null, JVal.null, JVal.null⟩,
         ⟨JVal.str "b", JVal.null, JVal.null, JVal.null, JVal.null,
          JVal.null, JVal.null, JVal.null⟩]⟩) ∧
    ([⟨JVal.str "a", JVal.null, JVal.null, JVal.null, JVal.null, JVal.null,
        JVal.null, JVal.null⟩,
      ⟨JVal.str "b", JVal.null, JVal.null, JVal.null, JVal.null, JVal.null,
        JVal.null, JVal.null⟩] : List Source).length =
      ([JVal.obj [("document_id", JVal.str "a")],
        JVal.obj [("document_id", JVal.str "b")]] : List JVal).length := by
  constructor
  · rfl
  · exact (c9_sources_one_per_entry_in_order exClient "what" none none 3
      (1 / 2)
      ⟨200, some [("query_id", JVal.str "q1"), ("query", JVal.str "what"),
        ("answer", JVal.str "42"), ("confidence_score", JVal.num (9 / 10)),
        ("processing_time_ms", JVal.int 12),
        ("sources", JVal.list
          [JVal.obj [("document_id", JVal.str "a")],
           JVal.obj [("document_id", JVal.str "b")]])], none⟩
      ⟨JVal.str "q1", JVal.str "what", JVal.str "42", JVal.num (9 / 10),
        JVal.int 12,
        [⟨JVal.str "a", JVal.null, JVal.null, JVal.null, JVal.null,
          JVal.null, JVal.null, JVal.null⟩,
         ⟨JVal.str "b", JVal.null, JVal.null, JVal.null, JVal.null,
          JVal.null, JVal.null, JVal.null⟩]⟩
      [JVal.obj [("document_id", JVal.str "a")],
       JVal.obj [("document_id", JVal.str "b")]] rfl rfl).1

lemma pySub_no_sens (o : JObj) (k : String) (x : PyExc)
    (h : pySub o k = Except.error x) : ∀ e, x ≠ PyExc.sens e := by
  unfold pySub at h
  split at h
  · simp at h
  · injection h with h1
    subst h1
    intro e
    simp

lemma documentOfGet_no_sens (o : JObj) (x : PyExc)
    (h : documentOfGet o = Except.error x) : ∀ e, x ≠ PyExc.sens e := by
  unfold documentOfGet at h
  repeat' split at h
  all_goals first
    | (injection h with h1; subst h1; exact pySub_no_sens _ _ _ (by assumption))
    | simp at h

lemma pyIter_no_sens (v : JVal) (x : PyExc)
    (h : pyIter v = Except.error x) : ∀ e, x ≠ PyExc.sens e := by
  unfold pyIter at h
  repeat' split at h
  all_goals first
    | (injection h with h1; subst h1; intro e; simp)
    | simp at h

lemma contextMkSource_no_sens (s : JVal) (x : PyExc)
    (h : contextMkSource s = Except.error x) : ∀ e, x ≠ PyExc.sens e := by
  unfold contextMkSource at h
  repeat' split at h
  all_goals first
    | (injection h with h1; subst h1; exact pySub_no_sens _ _ _ (by assumption))
    | (injection h with h1; subst h1; intro e; simp)
    | simp at h

lemma mapE_no_sens (f : JVal → Except PyExc Source)
    (hf : ∀ y x, f y = Except.error x → ∀ e, x ≠ PyExc.sens e) :
    ∀ (xs : List JVal) (x : PyExc), mapE f xs = Except.error x →
      ∀ e, x ≠ PyExc.sens e := by
  intro xs
  induction xs with
  | nil =>
    intro x h
    simp [mapE] at h
  | cons y ys ih =>
    intro x h
    simp only [mapE] at h
    cases hfy : f y with
    | error e2 =>
      simp only [hfy] at h
      injection h with h1
      subst h1
      exact hf y _ hfy
    | ok s =>
      simp only [hfy] at h
      cases hm : mapE f ys with
      | error e2 =>
        simp only [hm] at h
        injection h with h1
        subst h1
        exact ih _ hm
      | ok ss => simp [hm] at h

lemma contextRailOf_no_sens (o : JObj) (x : PyExc)
    (h : contextRailOf o = Except.error x) : ∀ e, x ≠ PyExc.sens e := by
  unfold contextRailOf at h
  repeat' split at h
  all_goals first
    | (injection h with h1; subst h1; exact pyIter_no_sens _ _ (by assumption))
    | (injection h with h1; subst h1;
       exact mapE_no_sens contextMkSource contextMkSource_no_sens _ _
         (by assumption))
    | (injection h with h1; subst h1; exact pySub_no_sens _ _ _ (by assumption))
    | simp at h

/-- C10 amended.  `get_document`, `delete_document` and `get_context_rail`
impose no local precondition on the id: for every string id (the empty
string included) exactly one request is issued, with the id interpolated
into the URL path; every `SensError` they raise is exactly the one
`_handle_response` maps from the response status — though a 2xx body
missing a required field additionally raises a decode `KeyError` (see the
counterexample). -/
theorem c10_id_uninspected_single_request (c : SensClient) (id qid : String)
    (r : Response) (e : SensExcData) :
    (get_document c id r).1 =
      [⟨"GET", c.base_url ++ "/documents/" ++ id, [], none⟩] ∧
    (delete_document c id r).1 =
      [⟨"DELETE", c.base_url ++ "/documents/" ++ id, [], none⟩] ∧
    (get_context_rail c qid r).1 =
      [⟨"GET", c.base_url ++ "/context-rail/" ++ qid, [], none⟩] ∧
    ((get_document c id r).2 = Except.error (PyExc.sens e) →
      handle_response r = Except.error (PyExc.sens e)) ∧
    ((delete_document c id r).2 = Except.error (PyExc.sens e) →
      handle_response r = Except.error (PyExc.sens e)) ∧
    ((get_context_rail c qid r).2 = Except.error (PyExc.sens e) →
      handle_response r = Except.error (PyExc.sens e)) := by
  refine ⟨rfl, rfl, rfl, ?_, ?_, ?_⟩
  · intro h
    simp only [get_document] at h
    cases hh : handle_response r with
    | error e2 =>
      simp only [hh] at h
      injection h with h1
      subst h1
      rfl
    | ok result =>
      simp only [hh] at h
      exact absurd rfl (documentOfGet_no_sens _ _ h e)
  · intro h
    simp only [delete_document] at h
    cases hh : handle_response r with
    | error e2 =>
      simp only [hh] at h
      injection h with h1
      subst h1
      rfl
    | ok result => simp [hh] at h
  · intro h
    simp only [get_context_rail] at h
    cases hh : handle_response r with
    | error e2 =>
      simp only [hh] at h
      injection h with h1
      subst h1
      rfl
    | ok result =>
      simp only [hh] at h
      exact absurd rfl (contextRailOf_no_sens _ _ h e)

/-- Witness for C10 at a 404 response and the empty document id. -/
theorem c10_id_uninspected_single_request_witness :
    (get_document exClient "" ⟨404, some [("message", JVal.str "gone")], none⟩).1 =
      [⟨"GET", exClient.base_url ++ "/documents/" ++ "", [], none⟩] ∧
    (delete_document exClient "" ⟨404, some [("message", JVal.str "gone")], none⟩).1 =
      [⟨"DELETE", exClient.base_url ++ "/documents/" ++ "", [], none⟩] ∧
    (get_context_rail exClient "" ⟨404, some [("message", JVal.str "gone")], none⟩).1 =
      [⟨"GET", exClient.base_url ++ "/context-rail/" ++ "", [], none⟩] ∧
    ((get_document exClient "" ⟨404, some [("message", JVal.str "gone")], none⟩).2 =
        Except.error (PyExc.sens (mkSensExc ErrKind.notFound
          (JVal.str "gone") JVal.null (JVal.obj []))) →
      handle_response ⟨404, some [("message", JVal.str "gone")], none⟩ =
        Except.error (PyExc.sens (mkSensExc ErrKind.notFound
          (JVal.str "gone") JVal.null (JVal.obj [])))) ∧
    ((delete_document exClient "" ⟨404, some [("message", JVal.str "gone")], none⟩).2 =
        Except.error (PyExc.sens (mkSensExc ErrKind.notFound
          (JVal.str "gone") JVal.null (JVal.obj []))) →
      handle_response ⟨404, some [("message", JVal.str "gone")], none⟩ =
        Except.error (PyExc.sens (mkSensExc ErrKind.notFound
          (JVal.str "gone") JVal.null (JVal.obj [])))) ∧
    ((get_context_rail exClient "" ⟨404, some [("message", JVal.str "gone")], none⟩).2 =
        Except.error (PyExc.sens (mkSensExc ErrKind.notFound
          (JVal.str "gone") JVal.null (JVal.obj []))) →
      handle_response ⟨404, some [("message", JVal.str "gone")], none⟩ =
        Except.error (PyExc.sens (mkSensExc ErrKind.notFound
          (JVal.str "gone") JVal.null (JVal.obj [])))) :=
  c10_id_uninspected_single_request exClient "" ""
    ⟨404, some [("message", JVal.str "gone")], none⟩
    (mkSensExc ErrKind.notFound (JVal.str "gone") JVal.null (JVal.obj []))

/-- Counterexample to C10 as stated: on a 200 response whose body is the
empty object, `get_document` raises `KeyError` — an error that does not
come from the status mapping, which succeeded. -/
theorem c10_counterexample :
    (get_document exClient "d1" ⟨200, some [], none⟩).2 =
      Except.error (PyExc.keyError "id") ∧
    handle_response ⟨200, some [], none⟩ = Except.ok [] :=
  ⟨rfl, rfl⟩

end SensPrism
